import Mathlib

/-!
A shallow embedding, in Lean 4, of the gevent-websocket repository
(files `geventwebsocket/hybi.py` and `geventwebsocket/handler.py`),
together with theorems settling the specification claims about it.

Bytes are modelled as `Nat` (each produced byte stays below 256 where the
source guarantees it; XOR and big-endian packing are explicit).  Python
strings of bytes are `List Nat`; Python `unicode` values are Lean `String`.
Stateful connection code becomes explicit state passing on `ConnState`;
Python exceptions become `Except PyError`.
-/

set_option maxRecDepth 4000

deriving instance DecidableEq for Except

namespace GeventWebSocket

/-- Error kinds.  `webSocketError`, `protocolError` and `frameTooLarge` are
modelled from the spec: the module `geventwebsocket/exceptions.py` is not in
the sources, and the spec (section 4.5) says `ProtocolError` and
`FrameTooLargeException` are specializations of `WebSocketError`.
`valueError`, `runtimeError`, `unicodeDecodeError` and `assertionError`
model the Python builtin exceptions raised by `hybi.py`
(`UnicodeDecodeError` is a Python subclass of `ValueError`). -/
inductive PyError where
  | webSocketError (msg : String)
  | protocolError (msg : String)
  | frameTooLarge (msg : String)
  | valueError
  | unicodeDecodeError
  | runtimeError (msg : String)
  | assertionError
deriving DecidableEq, Repr

/-- Modelled from the spec: `ProtocolError` is the only member of the
taxonomy caught by `except ProtocolError` (spec section 4.5). -/
def isProtocolError : PyError → Bool
  | .protocolError _ => true
  | _ => false

/-- Modelled from the spec: `except WebSocketError` catches the base kind
and its two specializations `ProtocolError` and `FrameTooLargeException`
(spec section 4.5); Python builtins are outside the taxonomy. -/
def isWebSocketErrorKind : PyError → Bool
  | .webSocketError _ => true
  | .protocolError _ => true
  | .frameTooLarge _ => true
  | _ => false

/-- A Python 2 payload value: `pyStr` is the byte-string type `str`
(which in Python 2 is the *byte* string), `pyUnicode` is `unicode`. -/
inductive PyData where
  | pyStr (bytes : List Nat)
  | pyUnicode (s : String)
deriving DecidableEq, Repr

/-- Models Python 2 `isinstance(message, str)` (`str` = byte string). -/
def PyData.isStrB : PyData → Bool
  | .pyStr _ => true
  | .pyUnicode _ => false

/-- UTF-8 encoding of one character as bytes (RFC 3629 layout). -/
def utf8EncodeCharNat (c : Char) : List Nat :=
  let n := c.toNat
  if n < 0x80 then [n]
  else if n < 0x800 then
    [0xc0 ||| (n >>> 6), 0x80 ||| (n &&& 0x3f)]
  else if n < 0x10000 then
    [0xe0 ||| (n >>> 12), 0x80 ||| ((n >>> 6) &&& 0x3f), 0x80 ||| (n &&& 0x3f)]
  else
    [0xf0 ||| (n >>> 18), 0x80 ||| ((n >>> 12) &&& 0x3f),
     0x80 ||| ((n >>> 6) &&& 0x3f), 0x80 ||| (n &&& 0x3f)]

/-- UTF-8 encoding of a Lean string as a byte list (models `s.encode('utf-8')`). -/
def utf8Encode (s : String) : List Nat :=
  s.data.flatMap utf8EncodeCharNat

/-- Models `websocket.encode_bytes` (module not in the sources).  Modelled
from the spec, section 4.4: converts a text value to its UTF-8 byte
encoding and passes already-byte-valued input through unchanged. -/
def encode_bytes : PyData → List Nat
  | .pyStr b => b
  | .pyUnicode s => utf8Encode s

/-- Models `struct.pack('!H', n)` for `n < 2 ^ 16`: 2-byte big-endian. -/
def pack16 (n : Nat) : List Nat :=
  [n / 2 ^ 8 % 256, n % 256]

/-- Models `struct.pack('!Q', n)` for `n < 2 ^ 64`: 8-byte big-endian. -/
def pack64 (n : Nat) : List Nat :=
  [n / 2 ^ 56 % 256, n / 2 ^ 48 % 256, n / 2 ^ 40 % 256, n / 2 ^ 32 % 256,
   n / 2 ^ 24 % 256, n / 2 ^ 16 % 256, n / 2 ^ 8 % 256, n % 256]

/-- Models `struct.unpack('!H', data)[0]` on a 2-byte string. -/
def unpack16 (l : List Nat) : Nat :=
  l.getD 0 0 * 256 + l.getD 1 0

/-- Models `struct.unpack('!Q', data)[0]` on an 8-byte string. -/
def unpack64 (l : List Nat) : Nat :=
  l.foldl (fun acc b => acc * 256 + b) 0

/-- Opcode constant `OPCODE_TEXT` (hybi.py line 11). -/
def OPCODE_TEXT : Nat := 0x01
/-- Opcode constant `OPCODE_BINARY` (hybi.py line 12). -/
def OPCODE_BINARY : Nat := 0x02
/-- Opcode constant `OPCODE_CLOSE` (hybi.py line 13). -/
def OPCODE_CLOSE : Nat := 0x08
/-- Opcode constant `OPCODE_PING` (hybi.py line 14). -/
def OPCODE_PING : Nat := 0x09
/-- Opcode constant `OPCODE_PONG` (hybi.py line 15). -/
def OPCODE_PONG : Nat := 0x0a

/-- `HEADER_RSV_MASK = 0x40 | 0x20 | 0x10` (hybi.py line 18). -/
def HEADER_RSV_MASK : Nat := 0x40 ||| 0x20 ||| 0x10

/-- Embeds `parse_header(data)` (hybi.py lines 258-283).  Returns
`(fin, opcode, has_mask, length)`.  The `%r`-formatted tails of the
source's error messages are abbreviated away; the leading text is kept. -/
def parse_header (data : List Nat) : Except PyError (Bool × Nat × Bool × Nat) :=
  if data.length ≠ 2 then .error .valueError
  else
    let first_byte := data.getD 0 0
    let second_byte := data.getD 1 0
    if first_byte &&& HEADER_RSV_MASK ≠ 0 then
      .error (.webSocketError "Received frame with non-zero reserved bits")
    else
      let fin : Bool := first_byte &&& 0x80 = 0x80
      let opcode := first_byte &&& 0x0f
      if 0x07 < opcode ∧ fin = false then
        .error (.webSocketError "Received fragmented control frame")
      else
        let has_mask : Bool := second_byte &&& 0x80 = 0x80
        let length := second_byte &&& 0x7f
        if 0x07 < opcode ∧ 125 < length then
          .error (.frameTooLarge "Control frame payload cannot be larger than 125 bytes")
        else
          .ok (fin, opcode, has_mask, length)

/-- Embeds `encode_header(message, opcode)` (hybi.py lines 286-300).
The source re-encodes `message` with `encode_bytes` and measures that. -/
def encode_header (message : PyData) (opcode : Nat) : Except PyError (List Nat) :=
  let msg_length := (encode_bytes message).length
  if msg_length < 126 then
    .ok ([0x80 ||| opcode] ++ [msg_length])
  else if msg_length < 2 ^ 16 then
    .ok ([0x80 ||| opcode] ++ [0x7e] ++ pack16 msg_length)
  else if msg_length < 2 ^ 63 then
    .ok ([0x80 ||| opcode] ++ [0x7f] ++ pack64 msg_length)
  else
    .error (.frameTooLarge "")

/-- Checks that a byte list is valid UTF-8 (models the failure condition of
Python 2 `message.decode('utf-8')`, a builtin not in the sources; RFC 3629
ranges, overlong forms and surrogates rejected). -/
def utf8Valid : List Nat → Bool
  | [] => true
  | b :: rest =>
    if b < 0x80 then utf8Valid rest
    else if b < 0xc2 then false
    else if b < 0xe0 then
      match rest with
      | c1 :: r => (0x80 ≤ c1 && c1 < 0xc0) && utf8Valid r
      | _ => false
    else if b < 0xf0 then
      match rest with
      | c1 :: c2 :: r =>
        (if b = 0xe0 then 0xa0 ≤ c1 && c1 < 0xc0
         else if b = 0xed then 0x80 ≤ c1 && c1 < 0xa0
         else 0x80 ≤ c1 && c1 < 0xc0) &&
        (0x80 ≤ c2 && c2 < 0xc0) && utf8Valid r
      | _ => false
    else if b < 0xf5 then
      match rest with
      | c1 :: c2 :: c3 :: r =>
        (if b = 0xf0 then 0x90 ≤ c1 && c1 < 0xc0
         else if b = 0xf4 then 0x80 ≤ c1 && c1 < 0x90
         else 0x80 ≤ c1 && c1 < 0xc0) &&
        (0x80 ≤ c2 && c2 < 0xc0) && (0x80 ≤ c3 && c3 < 0xc0) && utf8Valid r
      | _ => false
    else false

/-- Per-connection state of a `WebSocketHybi` object (hybi.py lines 21-35)
plus the wire and a ghost field.
`socket` models the truthiness of `self.socket` (set to `None` on close);
`stream` is the unread part of the incoming byte stream behind the bounded
reader `self._read`; `written` accumulates the bytes written to the socket;
`close_code` / `close_message` are the fields of the same names;
`reading` is the `self._reading` reentrancy guard.
`closedWith` is a ghost field recording the `code` argument of the
`close()` call that actually tore the socket down (`some none` when that
call was `close(None)`); the code itself keeps no such record. -/
structure ConnState where
  socket : Bool
  stream : List Nat
  written : List Nat
  close_code : Option Nat
  close_message : List Nat
  reading : Bool
  closedWith : Option (Option Nat)
deriving DecidableEq, Repr

/-- A freshly constructed `WebSocketHybi` (hybi.py lines 29-35) whose
incoming stream holds `stream`. -/
def initState (stream : List Nat) : ConnState :=
  { socket := true, stream := stream, written := [], close_code := none,
    close_message := [], reading := false, closedWith := none }

/-- Models the bounded read `self._read(n)` (`wrapped_read` lives in the
missing `websocket.py`).  Modelled from the spec, section 4.4: returns up
to `n` bytes, fewer (including zero) without raising when the peer closed. -/
def pyRead (n : Nat) (s : ConnState) : List Nat × ConnState :=
  (s.stream.take n, { s with stream := s.stream.drop n })

/-- Models `WebSocket.close` of the missing `websocket.py` (the
`super(WebSocketHybi, self).close()` calls).  Modelled from the spec,
section 4.4: unconditionally and idempotently severs the socket; in this
state abstraction (the `socket` flag is already cleared by the caller)
it has no further observable effect. -/
def baseClose (s : ConnState) : ConnState := s

/-- The falsy-`code` path of `WebSocketHybi.close` (hybi.py lines 232-242),
factored out because `send_frame`'s failure handler calls `self.close(None)`
and `close` itself calls `send_frame` (see `close_none_eq` below). -/
def close_abrupt (s : ConnState) : ConnState :=
  if s.socket = false then s
  else baseClose { s with socket := false, closedWith := some none }

/-- Embeds `WebSocketHybi.send_frame(message, opcode)` (hybi.py lines
200-213).  The write lock only serializes cooperative tasks and has no
effect in this sequential model; `self._write` itself is modelled as
always succeeding (appending to `written`).  The expression written is
`encode_header(message, opcode) + message` with `message` still the
caller's object: when it is a Python 2 `unicode` value, the `str +
unicode` concatenation implicitly ASCII-decodes the header, whose first
byte `0x80 | opcode` is never ASCII, so it raises `UnicodeDecodeError`
for every `unicode` payload and nothing is written.  Either failure
(`encode_header` raising, or this coercion) lands in the
`except Exception` handler, which runs `self.close(None)` and re-raises. -/
def send_frame (message : PyData) (opcode : Nat) (s : ConnState) :
    Except PyError Unit × ConnState :=
  if s.socket = false then
    (.error (.webSocketError "The connection was closed"), s)
  else
    match encode_header message opcode with
    | .error e => (.error e, close_abrupt s)
    | .ok hdr =>
      match message with
      | .pyStr b => (.ok (), { s with written := s.written ++ hdr ++ b })
      | .pyUnicode _ => (.error .unicodeDecodeError, close_abrupt s)

/-- Embeds `WebSocketHybi.close(code, message)` (hybi.py lines 226-255).
`code = none` models Python `code=None`; a `some 0` is falsy like `None`.
The `try` around `send_frame` swallows `WebSocketError`; since the socket
was already cleared two lines above, `send_frame` here always returns that
very error (its open-socket guard), so the match treats both outcomes with
the `finally` base-level close.  Default arguments at the call sites:
`self.close()` is `close s (some 1000) (.pyStr [])`. -/
def close (s : ConnState) (code : Option Nat) (message : PyData) : ConnState :=
  if s.socket = false then s
  else
    let s1 : ConnState := { s with socket := false, closedWith := some code }
    if code.getD 0 = 0 then baseClose s1
    else
      let payload := pack16 (code.getD 0) ++ encode_bytes message
      let r := send_frame (.pyStr payload) OPCODE_CLOSE s1
      baseClose r.2

/-- Embeds `WebSocketHybi.send(message, binary)` (hybi.py lines 215-224).
`binary = none` models the default `binary=None`; Python 2
`isinstance(message, str)` is `PyData.isStrB`. -/
def send (message : PyData) (binary : Option Bool) (s : ConnState) :
    Except PyError Unit × ConnState :=
  let b := match binary with
    | none => message.isStrB
    | some v => v
  let opcode := if b then OPCODE_BINARY else OPCODE_TEXT
  send_frame message opcode s

/-- Embeds `WebSocketHybi._read_header` (hybi.py lines 37-73).  The
`assert length == 127` before the 8-byte read always holds because
`parse_header` returns `length ≤ 127`. -/
def read_header (s : ConnState) :
    Except PyError (Bool × Nat × Bool × Nat) × ConnState :=
  let r0 := pyRead 2 s
  let data0 := r0.1
  let s := r0.2
  if data0 = [] then
    (.error (.webSocketError "Peer closed connection unexpectedly"), s)
  else
    match parse_header data0 with
    | .error e => (.error e, s)
    | .ok (fin, opcode, has_mask, length) =>
      if has_mask = false ∧ length ≠ 0 then
        (.error (.webSocketError "Message from client is not masked"), s)
      else if length < 126 then
        (.ok (fin, opcode, has_mask, length), s)
      else if length = 126 then
        let r1 := pyRead 2 s
        if r1.1.length ≠ 2 then
          (.error (.webSocketError "Incomplete read while reading 2-byte length"), r1.2)
        else
          (.ok (fin, opcode, has_mask, unpack16 r1.1), r1.2)
      else
        let r1 := pyRead 8 s
        if r1.1.length ≠ 8 then
          (.error (.webSocketError "Incomplete read while reading 8-byte length"), r1.2)
        else
          (.ok (fin, opcode, has_mask, unpack64 r1.1), r1.2)

/-- The body of `WebSocketHybi._read_frame` inside its `try` (hybi.py
lines 86-110): header, 4 mask bytes, payload, unmasking by
`payload[i] ^ mask[i % 4]`. -/
def read_frame_body (s : ConnState) :
    Except PyError (Bool × Nat × List Nat) × ConnState :=
  match read_header s with
  | (.error e, s) => (.error e, s)
  | (.ok (fin, opcode, _has_mask, length), s) =>
    let rm := pyRead 4 s
    let mask := rm.1
    let s := rm.2
    if mask.length ≠ 4 then
      (.error (.webSocketError "Incomplete read while reading mask"), s)
    else if length = 0 then
      (.ok (fin, opcode, ([] : List Nat)), s)
    else
      let rp := pyRead length s
      let payload := rp.1
      let s := rp.2
      if payload.length ≠ length then
        (.error (.webSocketError "Incomplete read: expected message of length bytes"), s)
      else
        (.ok (fin, opcode, payload.mapIdx fun i b => b ^^^ mask.getD (i % 4) 0), s)

/-- Embeds `WebSocketHybi._read_frame` (hybi.py lines 75-112): the
`self._reading` reentrancy guard around `read_frame_body`, with the
`finally` clearing the guard on every path. -/
def read_frame (s : ConnState) :
    Except PyError (Bool × Nat × List Nat) × ConnState :=
  if s.reading then
    (.error (.runtimeError "Reading is not possible from multiple greenlets"), s)
  else
    let r := read_frame_body { s with reading := true }
    (r.1, { r.2 with reading := false })

/-- The close-code validation at the end of the `OPCODE_CLOSE` branch of
`_read_message` (hybi.py lines 146-152): read `self.close_code`, echo a
normal close (`self.close()`, default code 1000) when absent or within
`[1000, 5000)`, else close with 1002 and raise. -/
def read_message_close_check (s : ConnState) :
    Except PyError (Option (List Nat × Bool)) × ConnState :=
  match s.close_code with
  | none => (.ok none, close s (some 1000) (.pyStr []))
  | some c =>
    if 1000 ≤ c ∧ c < 5000 then (.ok none, close s (some 1000) (.pyStr []))
    else (.error (.webSocketError "Received invalid close frame"), close s (some 1002) (.pyStr []))

/-- The return at the end of `_read_message` (hybi.py lines 166-171):
`(result, False)` for a text message, `(result, True)` for binary. -/
def read_message_finish (opcode : Option Nat) (result : List Nat) (s : ConnState) :
    Except PyError (Option (List Nat × Bool)) × ConnState :=
  if opcode = some OPCODE_TEXT then (.ok (some (result, false)), s)
  else if opcode = some OPCODE_BINARY then (.ok (some (result, true)), s)
  else (.error .assertionError, s)

/-- Embeds the `while True` loop of `WebSocketHybi._read_message`
(hybi.py lines 114-171); `opcode` and `result` are the loop variables.
The source's `if frame is None:` branch (lines 123-126) is dead code —
`_read_frame` either returns a triple or raises — and has no image here.
`fuel` only bounds the recursion; every iteration that loops again has
consumed at least 6 bytes of `stream`, so the `fuel = 0` case is
unreachable from `receive`, which passes `stream.length + 1`. -/
def read_message : Nat → Option Nat → List Nat → ConnState →
    Except PyError (Option (List Nat × Bool)) × ConnState
  | 0, _, _, s => (.error (.runtimeError "out of fuel"), s)
  | fuel + 1, opcode, result, s =>
    match read_frame s with
    | (.error e, s) => (.error e, s)
    | (.ok (f_fin, f_opcode, f_payload), s) =>
      if f_opcode = OPCODE_TEXT ∨ f_opcode = OPCODE_BINARY then
        match opcode with
        | none =>
          let result := result ++ f_payload
          if f_fin then read_message_finish (some f_opcode) result s
          else read_message fuel (some f_opcode) result s
        | some _ =>
          (.error (.webSocketError "The opcode in non-fin frame is expected to be zero"), s)
      else if f_opcode = 0 then
        match opcode with
        | none =>
          (.error (.webSocketError "Unexpected frame with opcode=0"),
           close s (some 1002) (.pyStr []))
        | some _ =>
          let result := result ++ f_payload
          if f_fin then read_message_finish opcode result s
          else read_message fuel opcode result s
      else if f_opcode = OPCODE_CLOSE then
        if 2 ≤ f_payload.length then
          let s := { s with close_code := some (unpack16 (f_payload.take 2)),
                            close_message := f_payload.drop 2 }
          read_message_close_check s
        else if f_payload ≠ [] then
          (.error (.webSocketError "Invalid close frame"), close s none (.pyStr []))
        else
          read_message_close_check s
      else if f_opcode = OPCODE_PING then
        match send_frame (.pyStr f_payload) OPCODE_PONG s with
        | (.error e, s) => (.error e, s)
        | (.ok _, s) => read_message fuel opcode result s
      else if f_opcode = OPCODE_PONG then
        read_message fuel opcode result s
      else
        (.error (.webSocketError "Unexpected opcode"), close s none (.pyStr []))

/-- Embeds `WebSocketHybi.receive` (hybi.py lines 173-198).  A text
message is returned as its (UTF-8 valid) byte list tagged `false`, a
binary one tagged `true` (the Python-level `unicode` object produced by
`decode` is not modelled beyond the validity of its bytes);
`UnicodeDecodeError` is the `ValueError` the decode handler catches. -/
def receive (s : ConnState) :
    Except PyError (Option (List Nat × Bool)) × ConnState :=
  match read_message (s.stream.length + 1) none [] s with
  | (.error e, s1) =>
    if isProtocolError e then (.error e, close s1 (some 1002) (.pyStr []))
    else (.error e, close s1 none (.pyStr []))
  | (.ok none, s1) => (.ok none, s1)
  | (.ok (some (message, is_binary)), s1) =>
    if is_binary then (.ok (some (message, true)), s1)
    else if utf8Valid message then (.ok (some (message, false)), s1)
    else (.error .unicodeDecodeError, close s1 (some 1007) (.pyStr []))

/-- The slice of the WSGI request environment read by
`WebSocketHandler.upgrade_websocket` (handler.py lines 94-126).
`Option String` fields are `none` when the key is absent; `has_websocket`
records whether the key `wsgi.websocket` is present. -/
structure HandlerEnv where
  request_method : String
  http_sec_websocket_version : Option String
  http_origin : Option String
  has_websocket : Bool
deriving DecidableEq, Repr

/-- The slice of `WebSocketHandler` state that `upgrade_websocket` touches:
its environ, `self.request_version`, the response status recorded by
`start_response`, and `self.result` (the pending response body). -/
structure Handler where
  environ : HandlerEnv
  request_version : String
  status : Option String
  result_body : Option (List String)
deriving DecidableEq, Repr

/-- Models the `self.start_response(status, headers)` calls inside
`upgrade_websocket`.  The override (handler.py lines 79-92) first lets the
host server record the status; its extra flag assignments only run when
`self.websocket` is set, which is never the case during
`upgrade_websocket`, so recording the status is the whole effect here. -/
def handlerStartResponse (h : Handler) (status : String) : Handler :=
  { h with status := some status }

/-- Truthiness of `environ.get(key)` for a string-valued key. -/
def truthyOpt : Option String → Bool
  | none => false
  | some s => s ≠ ""

/-- Embeds `WebSocketHandler.upgrade_websocket` (handler.py lines 94-126).
The two protocol-engine upgrade routines (`hybi.upgrade_connection`,
`hixie.upgrade_connection`) are not part of the two source files and are
passed in as parameters: each maps the handler to the mutated handler and
the value `result` it returned. -/
def upgrade_websocket
    (hybiUp hixieUp : Handler → Handler × Option (List String)) (h : Handler) :
    Bool × Handler :=
  if h.environ.request_method ≠ "GET" then
    (false, handlerStartResponse h "400 Bad Request")
  else if h.request_version ≠ "HTTP/1.1" then
    (false, handlerStartResponse h "400 Bad Request")
  else
    let delegated : Option (Handler × Option (List String)) :=
      if truthyOpt h.environ.http_sec_websocket_version then some (hybiUp h)
      else if truthyOpt h.environ.http_origin then some (hixieUp h)
      else none
    match delegated with
    | none => (false, h)
    | some (h1, result) =>
      if h1.environ.has_websocket = false then
        (false, { h1 with result_body := some (result.getD []) })
      else
        (true, h1)

/-- The slice of the WSGI environment read by `reconstruct_url`
(handler.py lines 129-175).  `http_host = none` models an absent
`HTTP_HOST` key. -/
structure UrlEnv where
  wsgi_url_scheme : String
  http_host : Option String
  server_name : String
  server_port : String
  script_name : String
  path_info : String
  query_string : String
deriving DecidableEq, Repr

/-- Models Python 2 `str.lower()`: character-wise lowercasing (written
with an explicit character map because `String.toLower` does not reduce
in the kernel). -/
def strLower (s : String) : String :=
  String.mk (s.data.map Char.toLower)

/-- Embeds Python 2 `urlparse.urlunsplit((scheme, netloc, url, query,
fragment))` — an external library routine called with `params = ''`, so
modelled directly from the stdlib source.  `(netloc or '')` equals
`netloc` for strings and is written as such. -/
def urlunsplit (scheme netloc url query fragment : String) : String :=
  let url1 :=
    if netloc ≠ "" ∨ (url ≠ "" ∧ url.take 2 = "//") then
      "//" ++ netloc ++ (if url ≠ "" ∧ url.take 1 ≠ "/" then "/" ++ url else url)
    else url
  let url2 := if scheme ≠ "" then scheme ++ ":" ++ url1 else url1
  let url3 := if query ≠ "" then url2 ++ "?" ++ query else url2
  if fragment ≠ "" then url3 ++ "#" ++ fragment else url3

/-- Embeds Python 2 `urlparse.urlunparse`. -/
def urlunparse (scheme netloc url params query fragment : String) : String :=
  urlunsplit scheme netloc (if params ≠ "" then url ++ ";" ++ params else url)
    query fragment

/-- Embeds `reconstruct_url(environ)` (handler.py lines 129-175).
`host = environ.get('HTTP_HOST', None); if not host: host = SERVER_NAME`
falls back both for an absent key and for a present-but-empty value
(Python truthiness); likewise `if port:` appends the port segment only
when `port` is a nonempty string rather than `None`. -/
def reconstruct_url (e : UrlEnv) : String :=
  let secure := strLower e.wsgi_url_scheme = "https"
  let scheme := if secure then "wss" else "ws"
  let host :=
    e.http_host.elim e.server_name (fun h => if h = "" then e.server_name else h)
  let port : Option String :=
    if secure then (if e.server_port ≠ "443" then some e.server_port else none)
    else (if e.server_port ≠ "80" then some e.server_port else none)
  let netloc :=
    port.elim host (fun p => if p ≠ "" then host ++ ":" ++ p else host)
  let path := e.script_name ++ e.path_info
  urlunparse scheme netloc path "" e.query_string ""

/-- The URL shape asserted by claim C8, word for word (a second definition
following the spec, for comparison with `reconstruct_url`): scheme `wss`
exactly for an https request, host from the `Host` header when present
else the server name, `:port` appended exactly when the server port
differs from the scheme default, path = script path ++ path-info, the
query string appended, never a fragment. -/
def reconstruct_url_claim (e : UrlEnv) : String :=
  let secure := strLower e.wsgi_url_scheme = "https"
  let scheme := if secure then "wss" else "ws"
  let host := e.http_host.getD e.server_name
  let defaultPort := if secure then "443" else "80"
  let hostport :=
    if e.server_port ≠ defaultPort then host ++ ":" ++ e.server_port else host
  scheme ++ "://" ++ hostport ++ e.script_name ++ e.path_info ++
    (if e.query_string ≠ "" then "?" ++ e.query_string else "")

/-- C1: on any open connection, `close(code, message)` with a truthy code
writes no bytes at all to the socket.  The claim (and `close`'s own
docstring) say one close control frame is written: but `close` clears
`self.socket` before calling `send_frame`, whose open-socket guard then
raises `WebSocketError('The connection was closed')`, which the
`except WebSocketError` clause swallows — so the close frame is never
sent and only the base-level shutdown happens. -/
theorem C1_close_writes_no_close_frame (s : ConnState) (c : Nat) (m : PyData)
    (hs : s.socket = true) (hc : c ≠ 0) :
    (close s (some c) m).written = s.written ∧
    (close s (some c) m).socket = false ∧
    (close s (some c) m).closedWith = some (some c) := by
  unfold close send_frame
  simp [hs, hc, baseClose]

/-- C1 witness: the theorem applied to a freshly opened connection being
closed with code 1000 and an empty message. -/
theorem C1_close_writes_no_close_frame_witness :
    (close (initState []) (some 1000) (.pyStr [])).written = (initState []).written ∧
    (close (initState []) (some 1000) (.pyStr [])).socket = false ∧
    (close (initState []) (some 1000) (.pyStr [])).closedWith = some (some 1000) :=
  C1_close_writes_no_close_frame (initState []) 1000 (.pyStr []) rfl (by decide)

/-- C2 counterexample: on a fresh connection whose stream is already at
end (the bounded 2-byte header read yields nothing) and with no partial
message bytes accumulated, `receive()` does not return the no-message
indication: it raises `WebSocketError('Peer closed connection
unexpectedly')` from `_read_header`. -/
theorem C2_eof_counterexample :
    (receive (initState [])).1 ≠ .ok none ∧
    (receive (initState [])).1 =
      .error (.webSocketError "Peer closed connection unexpectedly") := by
  constructor
  · decide
  · decide

/-- C2 amended: when the bounded read of the 2 header bytes yields
nothing, the message-read loop raises `WebSocketError` regardless of
whether partial message bytes were already accumulated (the
`frame is None` branch that would return the no-message indication is
dead code: `_read_frame` never returns `None`). -/
theorem C2_read_message_eof_raises (fuel : Nat) (opcode : Option Nat)
    (result : List Nat) (s : ConnState)
    (hstream : s.stream = []) (hread : s.reading = false) (hfuel : fuel ≠ 0) :
    (read_message fuel opcode result s).1 =
      .error (.webSocketError "Peer closed connection unexpectedly") := by
  cases fuel with
  | zero => exact absurd rfl hfuel
  | succ n =>
    simp [read_message, read_frame, read_frame_body, read_header, pyRead,
      hstream, hread]

/-- C2 amended witness: end of stream with nonempty accumulated partial
message bytes still raises the same error. -/
theorem C2_read_message_eof_raises_witness :
    (read_message 1 (some 1) [0x41] (initState [])).1 =
      .error (.webSocketError "Peer closed connection unexpectedly") :=
  C2_read_message_eof_raises 1 (some 1) [0x41] (initState []) rfl rfl (by decide)

/-- C3 counterexample: for a header with a reserved bit set, and for a
fragmented control frame, `parse_header` raises the base
`WebSocketError`, not the `ProtocolError` specialization the claim
requires. -/
theorem C3_parse_header_counterexample :
    parse_header [0x40, 0x00] =
      .error (.webSocketError "Received frame with non-zero reserved bits") ∧
    parse_header [0x09, 0x00] =
      .error (.webSocketError "Received fragmented control frame") ∧
    isProtocolError (.webSocketError "Received frame with non-zero reserved bits") = false ∧
    isProtocolError (.webSocketError "Received fragmented control frame") = false := by
  refine ⟨by decide, by decide, by decide, by decide⟩

/-- C3 amended: `parse_header` raises the base `WebSocketError` kind (not
`ProtocolError`) whenever a reserved bit (mask 0x70) of the first byte is
set, and likewise base `WebSocketError` when the opcode is a control
opcode (> 0x07) and the fin bit is clear. -/
theorem C3_parse_header_websocketerror (b0 b1 : Nat) :
    (b0 &&& HEADER_RSV_MASK ≠ 0 →
      parse_header [b0, b1] =
        .error (.webSocketError "Received frame with non-zero reserved bits")) ∧
    (b0 &&& HEADER_RSV_MASK = 0 → 0x07 < b0 &&& 0x0f → b0 &&& 0x80 ≠ 0x80 →
      parse_header [b0, b1] =
        .error (.webSocketError "Received fragmented control frame")) ∧
    ∀ msg : String, isProtocolError (.webSocketError msg) = false := by
  refine ⟨?_, ?_, fun _ => rfl⟩
  · intro h
    simp [parse_header, h]
  · intro h0 hop hfin
    simp [parse_header, h0, hop, hfin]

/-- C3 amended witness: the theorem applied to the header bytes 0x20 0x05. -/
theorem C3_parse_header_websocketerror_witness :
    parse_header [0x20, 0x05] =
      .error (.webSocketError "Received frame with non-zero reserved bits") :=
  (C3_parse_header_websocketerror 0x20 0x05).1 (by decide)

/-- C10: `parse_header` raises a bare `ValueError` — outside the
`WebSocketError` taxonomy — whenever its input is not exactly 2 bytes;
consequently a peer closing after delivering exactly 1 header byte makes
`receive()` surface `ValueError` to its caller. -/
theorem C10_parse_header_valueerror :
    (∀ data : List Nat, data.length ≠ 2 → parse_header data = .error .valueError) ∧
    (receive (initState [0x81])).1 = .error .valueError ∧
    isWebSocketErrorKind .valueError = false := by
  refine ⟨?_, by decide, by decide⟩
  intro data h
  unfold parse_header
  rw [if_pos h]

/-- C10 witness: the theorem's universal part applied to a 1-byte input. -/
theorem C10_parse_header_valueerror_witness :
    parse_header [0x88] = .error .valueError :=
  C10_parse_header_valueerror.1 [0x88] (by decide)

/-- `close` always leaves the socket severed, whatever code and message it
was given and whatever state it ran on. -/
lemma close_socket_eq_false (s : ConnState) (c : Option Nat) (m : PyData) :
    (close s c m).socket = false := by
  unfold close
  by_cases hs : s.socket = false
  · simp [hs]
  · simp only [hs, if_false]
    by_cases hc : c.getD 0 = 0
    · simp [hc, baseClose]
    · simp [hc, baseClose, send_frame]

/-- C4 counterexample: an unsolicited continuation frame (fin set,
opcode 0, masked, empty payload).  `receive()` propagates a failure that
is not a `ProtocolError` — so the claim requires an abrupt close with no
close frame — yet the call that tore the connection down was
`close(1002)`, made by the message-read loop before raising. -/
theorem C4_receive_close_code_counterexample :
    (receive (initState [0x80, 0x80, 0, 0, 0, 0])).1 =
      .error (.webSocketError "Unexpected frame with opcode=0") ∧
    isProtocolError (.webSocketError "Unexpected frame with opcode=0") = false ∧
    (receive (initState [0x80, 0x80, 0, 0, 0, 0])).2.closedWith = some (some 1002) := by
  refine ⟨by decide, by decide, by decide⟩

/-- C4 amended: whenever `receive()` propagates a failure, the connection
has been closed as a side effect first.  (`receive` itself closes with
1002 on `ProtocolError`, 1007 on a text decode failure and abruptly
otherwise, but the message-read loop may already have closed the
connection — with code 1002 for an unsolicited continuation frame or an
out-of-range close code — before raising a generic `WebSocketError`, in
which case `receive`'s own abrupt close is an idempotent no-op and the
earlier code stands.) -/
theorem C4_receive_error_closes (s : ConnState) (e : PyError)
    (h : (receive s).1 = .error e) : (receive s).2.socket = false := by
  unfold receive at h ⊢
  rcases hm : read_message (s.stream.length + 1) none [] s with ⟨r, s1⟩
  rw [hm] at h
  cases r with
  | error e1 =>
    by_cases hp : isProtocolError e1 <;>
      simp [hp, close_socket_eq_false]
  | ok v =>
    cases v with
    | none => simp at h
    | some p =>
      rcases p with ⟨message, is_binary⟩
      by_cases hb : is_binary
      · simp [hb] at h
      · by_cases hv : utf8Valid message
        · simp [hb, hv] at h
        · simp [hb, hv, close_socket_eq_false]

/-- C4 amended witness: the theorem applied to a connection whose peer
closed before sending any frame. -/
theorem C4_receive_error_closes_witness :
    (receive (initState [])).2.socket = false :=
  C4_receive_error_closes (initState [])
    (.webSocketError "Peer closed connection unexpectedly") (by decide)

/-- A length below 128 has bit 7 clear. -/
lemma small_and_128 (L : Nat) (h : L < 128) : L &&& 0x80 = 0 := by
  have h7 : L.testBit 7 = false := Nat.testBit_lt_two_pow h
  have := Nat.and_two_pow L 7
  rw [h7] at this
  simpa using this

/-- A length below 128 is unchanged by the 7-bit mask. -/
lemma small_and_127 (L : Nat) (h : L < 128) : L &&& 0x7f = L := by
  have h1 : L &&& (2 ^ 7 - 1) = L % 2 ^ 7 := Nat.and_pow_two_sub_one_eq_mod L 7
  norm_num at h1
  rw [h1]
  exact Nat.mod_eq_of_lt h

/-- C5: parsing the first two bytes of a header produced by
`encode_header` for a text or binary opcode yields fin = true, the
original opcode, has-mask = false, and the original payload length when
that length is below 126 (the extended-length marker 126 or 127
otherwise). -/
theorem C5_header_roundtrip (m : PyData) (op : Nat)
    (hop : op = OPCODE_TEXT ∨ op = OPCODE_BINARY)
    (hlen : (encode_bytes m).length < 2 ^ 63) (hdr : List Nat)
    (he : encode_header m op = .ok hdr) :
    parse_header (hdr.take 2) =
      .ok (true, op, false,
        if (encode_bytes m).length < 126 then (encode_bytes m).length
        else if (encode_bytes m).length < 2 ^ 16 then 126 else 127) := by
  unfold encode_header at he
  set L := (encode_bytes m).length with hLdef
  by_cases h1 : L < 126
  · rw [if_pos h1] at he
    injection he with he2
    subst he2
    rw [if_pos h1]
    have ha : L &&& 0x80 = 0 := small_and_128 L (by omega)
    have hc : L &&& 0x7f = L := small_and_127 L (by omega)
    rcases hop with hop | hop <;> subst hop
    · have d1 : (129 : Nat) &&& 112 = 0 := by decide
      have d2 : ¬ 7 < (129 : Nat) &&& 15 := by decide
      have d3 : (129 : Nat) &&& 128 = 128 := by decide
      have d4 : (129 : Nat) &&& 15 = 1 := by decide
      show parse_header [129, L] = Except.ok (true, OPCODE_TEXT, false, L)
      simp [parse_header, HEADER_RSV_MASK, OPCODE_TEXT, ha, hc, d1, d2, d3, d4]
    · have d1 : (130 : Nat) &&& 112 = 0 := by decide
      have d2 : ¬ 7 < (130 : Nat) &&& 15 := by decide
      have d3 : (130 : Nat) &&& 128 = 128 := by decide
      have d4 : (130 : Nat) &&& 15 = 2 := by decide
      show parse_header [130, L] = Except.ok (true, OPCODE_BINARY, false, L)
      simp [parse_header, HEADER_RSV_MASK, OPCODE_BINARY, ha, hc, d1, d2, d3, d4]
  · by_cases h2 : L < 2 ^ 16
    · rw [if_neg h1, if_pos h2] at he
      injection he with he2
      subst he2
      rw [if_neg h1, if_pos h2]
      rcases hop with hop | hop <;> subst hop
      · show parse_header [0x81, 0x7e] = Except.ok (true, OPCODE_TEXT, false, 126)
        decide
      · show parse_header [0x82, 0x7e] = Except.ok (true, OPCODE_BINARY, false, 126)
        decide
    · rw [if_neg h1, if_neg h2, if_pos hlen] at he
      injection he with he2
      subst he2
      rw [if_neg h1, if_neg h2]
      rcases hop with hop | hop <;> subst hop
      · show parse_header [0x81, 0x7f] = Except.ok (true, OPCODE_TEXT, false, 127)
        decide
      · show parse_header [0x82, 0x7f] = Except.ok (true, OPCODE_BINARY, false, 127)
        decide

/-- C5 witness: the theorem applied to a 1-byte binary payload. -/
theorem C5_header_roundtrip_witness :
    parse_header ([0x82, 0x01].take 2) = .ok (true, OPCODE_BINARY, false, 1) := by
  have := C5_header_roundtrip (.pyStr [0x41]) OPCODE_BINARY (Or.inr rfl)
    (by decide) [0x82, 0x01] (by decide)
  simpa using this

/-- C6: `encode_header` emits the literal length byte below 126, the
marker 0x7e with a 2-byte big-endian length up to 16 bits, the marker
0x7f with an 8-byte big-endian length below the 63-bit ceiling, and
raises `FrameTooLargeException` from there on. -/
theorem C6_encode_header_length_forms (m : PyData) (op : Nat) :
    ((encode_bytes m).length < 126 →
      encode_header m op = .ok [0x80 ||| op, (encode_bytes m).length]) ∧
    (126 ≤ (encode_bytes m).length → (encode_bytes m).length < 2 ^ 16 →
      encode_header m op =
        .ok ([0x80 ||| op, 0x7e] ++ pack16 (encode_bytes m).length)) ∧
    (2 ^ 16 ≤ (encode_bytes m).length → (encode_bytes m).length < 2 ^ 63 →
      encode_header m op =
        .ok ([0x80 ||| op, 0x7f] ++ pack64 (encode_bytes m).length)) ∧
    (2 ^ 63 ≤ (encode_bytes m).length →
      encode_header m op = .error (.frameTooLarge "")) := by
  refine ⟨?_, ?_, ?_, ?_⟩
  · intro h
    unfold encode_header
    rw [if_pos h]
    rfl
  · intro h1 h2
    have hn : ¬ (encode_bytes m).length < 126 := by omega
    unfold encode_header
    rw [if_neg hn, if_pos h2]
    rfl
  · intro h1 h2
    have hn1 : ¬ (encode_bytes m).length < 126 := by omega
    have hn2 : ¬ (encode_bytes m).length < 2 ^ 16 := by omega
    unfold encode_header
    rw [if_neg hn1, if_neg hn2, if_pos h2]
    rfl
  · intro h
    have hn1 : ¬ (encode_bytes m).length < 126 := by omega
    have hn2 : ¬ (encode_bytes m).length < 2 ^ 16 := by omega
    have hn3 : ¬ (encode_bytes m).length < 2 ^ 63 := by omega
    unfold encode_header
    rw [if_neg hn1, if_neg hn2, if_neg hn3]

/-- C6 witness: the 16-bit extended form at the boundary length 126. -/
theorem C6_encode_header_length_forms_witness :
    encode_header (.pyStr (List.replicate 126 0)) 2 =
      .ok ([0x80 ||| 2, 0x7e] ++
        pack16 (encode_bytes (.pyStr (List.replicate 126 0))).length) :=
  (C6_encode_header_length_forms (.pyStr (List.replicate 126 0)) 2).2.1
    (by decide) (by decide)

/-- On an open socket, `send_frame` of a byte-string payload writes a
frame whose first byte is `0x80 ||| opcode`. -/
lemma send_frame_written_head (b : List Nat) (op : Nat) (s : ConnState)
    (hs : s.socket = true) (hlen : b.length < 2 ^ 63) :
    ∃ rest, (send_frame (.pyStr b) op s).2.written =
      s.written ++ (0x80 ||| op) :: rest := by
  unfold send_frame
  by_cases h1 : b.length < 126
  · refine ⟨b.length :: b, ?_⟩
    simp [hs, encode_header, encode_bytes, h1]
  · by_cases h2 : b.length < 2 ^ 16
    · have h2n : b.length < 65536 := by omega
      refine ⟨0x7e :: pack16 b.length ++ b, ?_⟩
      simp [hs, encode_header, encode_bytes, h1, h2n]
    · have h2n : ¬ b.length < 65536 := by omega
      have h3n : b.length < 9223372036854775808 := by omega
      refine ⟨0x7f :: pack64 b.length ++ b, ?_⟩
      simp [hs, encode_header, encode_bytes, h1, h2n, h3n]

/-- On an open socket, `send_frame` of a `unicode` payload raises
`UnicodeDecodeError` from the `str + unicode` coercion at the write,
writes nothing, and closes the connection abruptly. -/
lemma send_frame_unicode_raises (t : String) (op : Nat) (s : ConnState)
    (hs : s.socket = true) (hlen : (utf8Encode t).length < 2 ^ 63) :
    (send_frame (.pyUnicode t) op s).1 = .error .unicodeDecodeError ∧
    (send_frame (.pyUnicode t) op s).2.written = s.written ∧
    (send_frame (.pyUnicode t) op s).2.socket = false := by
  unfold send_frame
  by_cases h1 : (utf8Encode t).length < 126
  · simp [hs, encode_header, encode_bytes, h1, close_abrupt, baseClose]
  · by_cases h2 : (utf8Encode t).length < 65536
    · simp [hs, encode_header, encode_bytes, h1, h2, close_abrupt, baseClose]
    · have h3n : (utf8Encode t).length < 9223372036854775808 := by omega
      simp [hs, encode_header, encode_bytes, h1, h2, h3n, close_abrupt, baseClose]

/-- C9 counterexample: the text half of the claim's decision table fails.
With `binary` unspecified and a `unicode` payload, `send` never puts a
text-opcode frame on the wire: the `str + unicode` concatenation at
hybi.py line 209 raises `UnicodeDecodeError` (the header's first byte
`0x80 | opcode` is non-ASCII), the handler closes the connection
abruptly, and nothing at all is written. -/
theorem C9_send_text_counterexample :
    (send (.pyUnicode "hi") none (initState [])).1 = .error .unicodeDecodeError ∧
    (send (.pyUnicode "hi") none (initState [])).2.written = [] ∧
    (send (.pyUnicode "hi") none (initState [])).2.socket = false ∧
    (send (.pyUnicode "hi") none (initState [])).2.closedWith = some none := by
  refine ⟨by decide, by decide, by decide, by decide⟩

/-- C9 amended: with `binary` unspecified, `send` emits a binary-opcode
(0x02) frame exactly for the byte-string (`str`) payload representation;
a `unicode` payload never produces a text frame — for every such payload
and every `binary` argument the write raises `UnicodeDecodeError`, the
connection is closed abruptly, and nothing is written.  On byte-string
payloads an explicitly true `binary` uses the binary opcode and an
explicitly false one the text opcode (0x01), per the author's literal
decision table. -/
theorem C9_send_opcode_selection_amended (s : ConnState) (hs : s.socket = true) :
    (∀ b : List Nat, b.length < 2 ^ 63 →
      (∃ rest, (send (.pyStr b) none s).2.written =
        s.written ++ (0x80 ||| OPCODE_BINARY) :: rest) ∧
      (∃ rest, (send (.pyStr b) (some true) s).2.written =
        s.written ++ (0x80 ||| OPCODE_BINARY) :: rest) ∧
      (∃ rest, (send (.pyStr b) (some false) s).2.written =
        s.written ++ (0x80 ||| OPCODE_TEXT) :: rest)) ∧
    (∀ (t : String) (binary : Option Bool), (utf8Encode t).length < 2 ^ 63 →
      (send (.pyUnicode t) binary s).1 = .error .unicodeDecodeError ∧
      (send (.pyUnicode t) binary s).2.written = s.written ∧
      (send (.pyUnicode t) binary s).2.socket = false) := by
  constructor
  · intro b hlen
    refine ⟨?_, ?_, ?_⟩
    · simpa [send, PyData.isStrB] using send_frame_written_head b OPCODE_BINARY s hs hlen
    · simpa [send] using send_frame_written_head b OPCODE_BINARY s hs hlen
    · simpa [send] using send_frame_written_head b OPCODE_TEXT s hs hlen
  · intro t binary hlen
    have h := send_frame_unicode_raises t
      (if binary.getD (PyData.pyUnicode t).isStrB then OPCODE_BINARY else OPCODE_TEXT)
      s hs hlen
    cases binary with
    | none => simpa [send, PyData.isStrB] using h
    | some v => simpa [send, PyData.isStrB] using h

/-- C9 amended witness: a byte-string payload with `binary` unspecified
starts the written frame with `0x80 ||| 0x02 = 0x82`, and a `unicode`
payload makes `send` raise `UnicodeDecodeError`. -/
theorem C9_send_opcode_selection_amended_witness :
    ((send (.pyStr [1, 2]) none (initState [])).2.written).head? = some 0x82 ∧
    (send (.pyUnicode "A") none (initState [])).1 = .error .unicodeDecodeError := by
  constructor
  · obtain ⟨rest, hr⟩ :=
      ((C9_send_opcode_selection_amended (initState []) rfl).1 [1, 2] (by decide)).1
    rw [hr]
    rfl
  · exact ((C9_send_opcode_selection_amended (initState []) rfl).2 "A" none (by decide)).1

/-- C7: for a request whose method is not GET or whose HTTP version is
not exactly HTTP/1.1, `upgrade_websocket()` records a 400 Bad Request
status, returns failure, and leaves the request environment untouched
(in particular no connection object is installed), whatever the two
protocol-engine upgrade routines would do. -/
theorem C7_upgrade_rejects_non_get_or_non_http11
    (hybiUp hixieUp : Handler → Handler × Option (List String)) (h : Handler)
    (hbad : h.environ.request_method ≠ "GET" ∨ h.request_version ≠ "HTTP/1.1") :
    (upgrade_websocket hybiUp hixieUp h).1 = false ∧
    (upgrade_websocket hybiUp hixieUp h).2.status = some "400 Bad Request" ∧
    (upgrade_websocket hybiUp hixieUp h).2.environ = h.environ := by
  by_cases hm : h.environ.request_method = "GET"
  · have hv : h.request_version ≠ "HTTP/1.1" := by tauto
    simp [upgrade_websocket, handlerStartResponse, hm, hv]
  · simp [upgrade_websocket, handlerStartResponse, hm]

/-- C7 witness: a POST request with a Hybi version header is rejected. -/
theorem C7_upgrade_rejects_non_get_or_non_http11_witness :
    (upgrade_websocket (fun x => (x, none)) (fun x => (x, none))
      { environ := { request_method := "POST", http_sec_websocket_version := some "13",
                     http_origin := none, has_websocket := false },
        request_version := "HTTP/1.1", status := none, result_body := none }).1 = false ∧
    (upgrade_websocket (fun x => (x, none)) (fun x => (x, none))
      { environ := { request_method := "POST", http_sec_websocket_version := some "13",
                     http_origin := none, has_websocket := false },
        request_version := "HTTP/1.1", status := none, result_body := none }).2.status =
      some "400 Bad Request" ∧
    (upgrade_websocket (fun x => (x, none)) (fun x => (x, none))
      { environ := { request_method := "POST", http_sec_websocket_version := some "13",
                     http_origin := none, has_websocket := false },
        request_version := "HTTP/1.1", status := none, result_body := none }).2.environ =
      { request_method := "POST", http_sec_websocket_version := some "13",
        http_origin := none, has_websocket := false } :=
  C7_upgrade_rejects_non_get_or_non_http11 (fun x => (x, none)) (fun x => (x, none))
    { environ := { request_method := "POST", http_sec_websocket_version := some "13",
                   http_origin := none, has_websocket := false },
      request_version := "HTTP/1.1", status := none, result_body := none }
    (Or.inl (by decide))

/-- A string with a nonempty left part of an append is nonempty. -/
lemma append_ne_empty_left (a b : String) (h : a ≠ "") : a ++ b ≠ "" := by
  intro hab
  apply h
  have hlen := congrArg String.length hab
  rw [String.length_append] at hlen
  have ha : a.length = 0 := by
    simp at hlen
    omega
  exact String.ext (List.length_eq_zero.mp ha)

/-- Merging the scheme separator pieces. -/
lemma colon_slash_glue (t : String) : ":" ++ ("//" ++ t) = "://" ++ t := by
  rw [← String.append_assoc]
  rfl

/-- `urlunsplit` on a nonempty scheme and netloc, an absolute-or-empty
path, and no fragment. -/
lemma urlunsplit_parts (scheme netloc url query : String) (hs : scheme ≠ "")
    (hn : netloc ≠ "") (hu : url = "" ∨ url.take 1 = "/") :
    urlunsplit scheme netloc url query "" =
      scheme ++ ":" ++ ("//" ++ netloc ++ url) ++
        (if query = "" then "" else "?" ++ query) := by
  have h2 : ¬ (url ≠ "" ∧ url.take 1 ≠ "/") := by
    rcases hu with h | h
    · simp [h]
    · simp [h]
  simp only [urlunsplit]
  rw [if_pos (Or.inl hn), if_neg h2, if_pos hs]
  by_cases hq : query = ""
  · simp [hq]
  · simp [hq, String.append_assoc]

/-- The netloc-and-path part of `reconstruct_url`, for one already-chosen
scheme string and its default port. -/
lemma reconstruct_core (schemeStr defPort host sp path q : String)
    (hsch : schemeStr ≠ "")
    (hhost : host ≠ "") (hport : sp ≠ "")
    (hpath : path = "" ∨ path.take 1 = "/") :
    urlunsplit schemeStr
      ((if sp ≠ defPort then some sp else none).elim host
        (fun p => if p ≠ "" then host ++ ":" ++ p else host)) path q "" =
    schemeStr ++ "://" ++
      (host ++ (if sp = defPort then "" else ":" ++ sp)) ++ path ++
      (if q = "" then "" else "?" ++ q) := by
  by_cases hp : sp = defPort
  · rw [if_neg (by simp [hp]), if_pos hp]
    simp only [Option.elim]
    rw [urlunsplit_parts schemeStr host path q hsch hhost hpath]
    rw [String.append_empty]
    simp only [String.append_assoc]
    rw [colon_slash_glue]
  · rw [if_pos hp, if_neg hp]
    simp only [Option.elim]
    rw [if_pos hport]
    rw [urlunsplit_parts schemeStr (host ++ ":" ++ sp) path q hsch
      (append_ne_empty_left (host ++ ":") sp (append_ne_empty_left host ":" hhost)) hpath]
    simp only [String.append_assoc]
    rw [colon_slash_glue]

/-- C8 counterexample: the claim's reading of `reconstruct_url`
(`reconstruct_url_claim`) disagrees with the code on three concrete
environments: a present-but-empty `Host` header (the code falls back to
the server name, the claim keeps the empty header), an empty server-port
string (the code omits the port segment, the claim appends `:`), and a
path-info not starting with a slash (`urlunparse` inserts a slash the
claim's concatenation lacks). -/
theorem C8_reconstruct_url_counterexample :
    reconstruct_url
        { wsgi_url_scheme := "http", http_host := some "", server_name := "srv",
          server_port := "80", script_name := "", path_info := "/chat",
          query_string := "" } = "ws://srv/chat" ∧
    reconstruct_url_claim
        { wsgi_url_scheme := "http", http_host := some "", server_name := "srv",
          server_port := "80", script_name := "", path_info := "/chat",
          query_string := "" } = "ws:///chat" ∧
    reconstruct_url
        { wsgi_url_scheme := "http", http_host := some "h", server_name := "srv",
          server_port := "", script_name := "", path_info := "/p",
          query_string := "" } ≠
      reconstruct_url_claim
        { wsgi_url_scheme := "http", http_host := some "h", server_name := "srv",
          server_port := "", script_name := "", path_info := "/p",
          query_string := "" } ∧
    reconstruct_url
        { wsgi_url_scheme := "http", http_host := some "h", server_name := "srv",
          server_port := "80", script_name := "", path_info := "x",
          query_string := "" } ≠
      reconstruct_url_claim
        { wsgi_url_scheme := "http", http_host := some "h", server_name := "srv",
          server_port := "80", script_name := "", path_info := "x",
          query_string := "" } := by
  refine ⟨by decide, by decide, by decide, by decide⟩

/-- C8 amended: for every request environment whose resolved host
(`Host` header when present and nonempty, else the server name) is
nonempty, whose server-port string is nonempty, and whose script-path ++
path-info concatenation is empty or begins with a slash,
`reconstruct_url` yields scheme `wss` exactly when the request scheme
lowercases to https (else `ws`), that resolved host, the `:port` segment
exactly when the port differs from the scheme default (443 for wss, 80
for ws), the concatenated path, the query string preceded by a question
mark when nonempty, and never a fragment. -/
theorem C8_reconstruct_url_amended (e : UrlEnv)
    (hhost : e.http_host.elim e.server_name
      (fun h => if h = "" then e.server_name else h) ≠ "")
    (hport : e.server_port ≠ "")
    (hpath : e.script_name ++ e.path_info = "" ∨
      (e.script_name ++ e.path_info).take 1 = "/") :
    reconstruct_url e =
      (if strLower e.wsgi_url_scheme = "https" then "wss" else "ws") ++ "://" ++
      (e.http_host.elim e.server_name
          (fun h => if h = "" then e.server_name else h) ++
        (if e.server_port =
              (if strLower e.wsgi_url_scheme = "https" then "443" else "80")
         then "" else ":" ++ e.server_port)) ++
      (e.script_name ++ e.path_info) ++
      (if e.query_string = "" then "" else "?" ++ e.query_string) := by
  obtain ⟨sch, hh, sn, sp, scn, pi, q⟩ := e
  simp only [reconstruct_url, urlunparse] at *
  rw [if_neg (by simp : ¬ ("" : String) ≠ "")]
  by_cases hsec : strLower sch = "https"
  · simp only [hsec, eq_self_iff_true, if_true]
    exact reconstruct_core "wss" "443"
      (Option.elim hh sn (fun h => if h = "" then sn else h)) sp (scn ++ pi) q
      (by decide) hhost hport hpath
  · simp only [hsec, if_false]
    exact reconstruct_core "ws" "80"
      (Option.elim hh sn (fun h => if h = "" then sn else h)) sp (scn ++ pi) q
      (by decide) hhost hport hpath

/-- C8 amended witness: the theorem applied to a nonstandard-port http
request with a nonempty query. -/
theorem C8_reconstruct_url_amended_witness :
    reconstruct_url
      { wsgi_url_scheme := "http", http_host := some "example.org",
        server_name := "srv", server_port := "8080", script_name := "",
        path_info := "/a", query_string := "b=1" } =
    "ws://example.org:8080/a?b=1" := by
  have h := C8_reconstruct_url_amended
    { wsgi_url_scheme := "http", http_host := some "example.org",
      server_name := "srv", server_port := "8080", script_name := "",
      path_info := "/a", query_string := "b=1" }
    (by decide) (by decide) (by decide)
  exact h.trans (by decide)

end GeventWebSocket
